import Mathlib

/-!
Verification development for the Cognito authentication lambda core of the
terraform-aws-auth-module repository.  The Python sources embedded here are:

* src/post_confirmation_lambda/index.py   (tenant resolution, account linking)
* src/pre_token_generation_lambda/index.py (claims enrichment)
* src/pre_sign_up_lambda/uuidv7.py        (time-ordered 128-bit identifiers)

Python strings are modelled as Lean `String`; every string operation used by
the sources is re-implemented structurally over `String.data` so that all
definitions are kernel-computable.  Machine integers are modelled as `Nat`
with explicit reduction modulo powers of two.  DynamoDB is modelled as a list
of items; conditional and transactional writes follow the DynamoDB contract
that a condition expression of the form attribute_not_exists fails exactly
when an item with the written primary key is already present.
-/

set_option maxRecDepth 4096

deriving instance DecidableEq for Except

namespace AuthModule

/-! ## Computable models of the Python string operations -/

/-- Model of Python str.split with a one-character separator. -/
def pySplitList (sep : Char) : List Char → List Char → List String
  | [], acc => [String.mk acc.reverse]
  | c :: rest, acc =>
    if c = sep then String.mk acc.reverse :: pySplitList sep rest []
    else pySplitList sep rest (c :: acc)

/-- Python str.split(sep) for a one-character separator. -/
def pySplit (s : String) (sep : Char) : List String :=
  pySplitList sep s.data []

/-- Python str.lower (ASCII range, as used for email domains). -/
def pyLower (s : String) : String :=
  String.mk (s.data.map Char.toLower)

/-- Python str.upper (ASCII range, as used for provider names). -/
def pyUpper (s : String) : String :=
  String.mk (s.data.map Char.toUpper)

/-- Python membership test for a character in a string. -/
def pyHasChar (s : String) (c : Char) : Bool :=
  s.data.contains c

/-- Python slicing s[:n]. -/
def pyTake (s : String) (n : Nat) : String :=
  String.mk (s.data.take n)

/-- Python substring containment test (the `in` operator on two strings). -/
def listContainsSub (needle : List Char) : List Char → Bool
  | [] => needle.isEmpty
  | c :: rest => needle.isPrefixOf (c :: rest) || listContainsSub needle rest

/-- Python substring containment, needle `in` hay. -/
def pyContainsSub (hay needle : String) : Bool :=
  listContainsSub needle.data hay.data

/-- Python str.startswith. -/
def pyStartsWith (s pre : String) : Bool :=
  pre.data.isPrefixOf s.data

/-! ## MD5 (model of hashlib.md5(...).hexdigest(), RFC 1321)

The personal-tenant fallback hashes the user email with MD5 and keeps the
first eight hex digits, so the hash itself is embedded. -/

/-- UTF-8 encoding of one code point, as Python str.encode produces. -/
def utf8EncodeCharNat (c : Nat) : List Nat :=
  if c < 0x80 then [c]
  else if c < 0x800 then
    [0xC0 ||| (c >>> 6), 0x80 ||| (c &&& 0x3F)]
  else if c < 0x10000 then
    [0xE0 ||| (c >>> 12), 0x80 ||| ((c >>> 6) &&& 0x3F), 0x80 ||| (c &&& 0x3F)]
  else
    [0xF0 ||| (c >>> 18), 0x80 ||| ((c >>> 12) &&& 0x3F),
     0x80 ||| ((c >>> 6) &&& 0x3F), 0x80 ||| (c &&& 0x3F)]

/-- UTF-8 bytes of a string (Python identifier.encode()). -/
def utf8Bytes (s : String) : List Nat :=
  s.data.foldr (fun ch acc => utf8EncodeCharNat ch.toNat ++ acc) []

/-- The 64 MD5 round constants of RFC 1321. -/
def md5K : List Nat :=
  [0xd76aa478, 0xe8c7b756, 0x242070db, 0xc1bdceee,
   0xf57c0faf, 0x4787c62a, 0xa8304613, 0xfd469501,
   0x698098d8, 0x8b44f7af, 0xffff5bb1, 0x895cd7be,
   0x6b901122, 0xfd987193, 0xa679438e, 0x49b40821,
   0xf61e2562, 0xc040b340, 0x265e5a51, 0xe9b6c7aa,
   0xd62f105d, 0x02441453, 0xd8a1e681, 0xe7d3fbc8,
   0x21e1cde6, 0xc33707d6, 0xf4d50d87, 0x455a14ed,
   0xa9e3e905, 0xfcefa3f8, 0x676f02d9, 0x8d2a4c8a,
   0xfffa3942, 0x8771f681, 0x6d9d6122, 0xfde5380c,
   0xa4beea44, 0x4bdecfa9, 0xf6bb4b60, 0xbebfbc70,
   0x289b7ec6, 0xeaa127fa, 0xd4ef3085, 0x04881d05,
   0xd9d4d039, 0xe6db99e5, 0x1fa27cf8, 0xc4ac5665,
   0xf4292244, 0x432aff97, 0xab9423a7, 0xfc93a039,
   0x655b59c3, 0x8f0ccc92, 0xffeff47d, 0x85845dd1,
   0x6fa87e4f, 0xfe2ce6e0, 0xa3014314, 0x4e0811a1,
   0xf7537e82, 0xbd3af235, 0x2ad7d2bb, 0xeb86d391]

/-- The 64 MD5 per-round left-rotation amounts of RFC 1321. -/
def md5S : List Nat :=
  [7, 12, 17, 22, 7, 12, 17, 22, 7, 12, 17, 22, 7, 12, 17, 22,
   5, 9, 14, 20, 5, 9, 14, 20, 5, 9, 14, 20, 5, 9, 14, 20,
   4, 11, 16, 23, 4, 11, 16, 23, 4, 11, 16, 23, 4, 11, 16, 23,
   6, 10, 15, 21, 6, 10, 15, 21, 6, 10, 15, 21, 6, 10, 15, 21]

/-- Left rotation of a 32-bit value. -/
def rotl32 (x c : Nat) : Nat :=
  ((x <<< c) ||| (x >>> (32 - c))) % 4294967296

/-- Little-endian bytes of a value, k bytes wide. -/
def leBytes : Nat → Nat → List Nat
  | 0, _ => []
  | k + 1, v => (v % 256) :: leBytes k (v / 256)

/-- MD5 padding: append 0x80, zero bytes to 56 mod 64, then the 64-bit
little-endian bit length. -/
def md5Pad (msg : List Nat) : List Nat :=
  let L := msg.length
  let zeroCount := (119 - (L % 64)) % 64
  msg ++ [0x80] ++ List.replicate zeroCount 0 ++ leBytes 8 ((8 * L) % 18446744073709551616)

/-- Split a byte list into 64-byte chunks (structural recursion on a fuel
bound so that the definition evaluates inside the kernel). -/
def chunks64Go : Nat → List Nat → List (List Nat)
  | 0, _ => []
  | _, [] => []
  | fuel + 1, x :: xs => (x :: xs).take 64 :: chunks64Go fuel ((x :: xs).drop 64)

/-- Split a byte list into 64-byte chunks. -/
def chunks64 (l : List Nat) : List (List Nat) :=
  chunks64Go l.length l

/-- The little-endian 32-bit message word M g of a 64-byte chunk. -/
def md5Word (chunk : List Nat) (g : Nat) : Nat :=
  chunk.getD (4 * g) 0 + 256 * chunk.getD (4 * g + 1) 0 +
    65536 * chunk.getD (4 * g + 2) 0 + 16777216 * chunk.getD (4 * g + 3) 0

/-- One MD5 round (round index i from 0 to 63). -/
def md5Round (chunk : List Nat) (st : Nat × Nat × Nat × Nat) (i : Nat) :
    Nat × Nat × Nat × Nat :=
  let a := st.1
  let b := st.2.1
  let c := st.2.2.1
  let d := st.2.2.2
  let fg : Nat × Nat :=
    if i < 16 then ((b &&& c) ||| ((b ^^^ 0xffffffff) &&& d), i)
    else if i < 32 then ((d &&& b) ||| ((d ^^^ 0xffffffff) &&& c), (5 * i + 1) % 16)
    else if i < 48 then (b ^^^ c ^^^ d, (3 * i + 5) % 16)
    else (c ^^^ (b ||| (d ^^^ 0xffffffff)), (7 * i) % 16)
  let f := (fg.1 + a + md5K.getD i 0 + md5Word chunk fg.2) % 4294967296
  (d, (b + rotl32 f (md5S.getD i 0)) % 4294967296, b, c)

/-- Process one 64-byte chunk, updating the four 32-bit registers. -/
def md5Chunk (st : Nat × Nat × Nat × Nat) (chunk : List Nat) :
    Nat × Nat × Nat × Nat :=
  let r := (List.range 64).foldl (md5Round chunk) st
  ((st.1 + r.1) % 4294967296, (st.2.1 + r.2.1) % 4294967296,
   (st.2.2.1 + r.2.2.1) % 4294967296, (st.2.2.2 + r.2.2.2) % 4294967296)

/-- MD5 digest of a byte list, as 16 bytes. -/
def md5Bytes (msg : List Nat) : List Nat :=
  let init : Nat × Nat × Nat × Nat := (0x67452301, 0xefcdab89, 0x98badcfe, 0x10325476)
  let r := (chunks64 (md5Pad msg)).foldl md5Chunk init
  leBytes 4 r.1 ++ leBytes 4 r.2.1 ++ leBytes 4 r.2.2.1 ++ leBytes 4 r.2.2.2

/-- One lowercase hex digit. -/
def hexDigit (n : Nat) : Char :=
  "0123456789abcdef".data.getD n '0'

/-- Lowercase hex rendering of a byte. -/
def byteHex (b : Nat) : List Char :=
  [hexDigit (b / 16), hexDigit (b % 16)]

/-- Model of hashlib.md5(s.encode()).hexdigest(). -/
def md5Hexdigest (s : String) : String :=
  String.mk ((md5Bytes (utf8Bytes s)).foldr (fun b acc => byteHex b ++ acc) [])

/-- Sanity check against the RFC 1321 test vector for the empty string. -/
theorem md5_vector_empty : md5Hexdigest "" = "d41d8cd98f00b204e9800998ecf8427e" := by decide

/-- Sanity check against the RFC 1321 test vector for "abc". -/
theorem md5_vector_abc : md5Hexdigest "abc" = "900150983cd24fb0d6963f7d28e17f72" := by decide

/-! ## Tenant resolver (determine_tenant_id of post_confirmation_lambda/index.py)

The process-wide environment configuration of lines 27-31 is modelled as an
explicit structure, the Cognito event as the fields the function reads. -/

/-- Environment configuration of the post-confirmation lambda (lines 27-31). -/
structure TenantConfig where
  TENANT_STRATEGY : String
  ALLOW_PERSONAL_TENANTS : Bool
  DOMAIN_TENANT_MAP : List (String × String)
  ALLOWED_DOMAINS : List String
  REQUIRE_TENANT : Bool
deriving DecidableEq

/-- The caller context of a Cognito event (clientMetadata, clientId). -/
structure CallerContext where
  clientMetadata : List (String × String)
  clientId : Option String
deriving DecidableEq

/-- The request part of a Cognito event. -/
structure SignupRequest where
  userAttributes : List (String × String)
deriving DecidableEq

/-- A Cognito post-confirmation trigger event, restricted to the fields the
lambda reads. -/
structure SignupEvent where
  triggerSource : Option String
  userName : String
  userPoolId : String
  request : SignupRequest
  callerContext : CallerContext
deriving DecidableEq

/-- Python truthiness of an optional string (None and the empty string are
falsy). -/
def truthy (o : Option String) : Bool :=
  o.getD "" ≠ ""

/-- The personal tenant id of lines 124-127: "personal-" followed by the
first eight hex digits of the MD5 of the identifier. -/
def personal_tenant_id (identifier : String) : String :=
  "personal-" ++ pyTake (md5Hexdigest identifier) 8

/-- The hard-coded consumer email domains of line 118. -/
def consumerDomains : List String :=
  ["gmail", "hotmail", "yahoo", "outlook", "icloud"]

/-- Embedding of determine_tenant_id (lines 33-138).  A raised ValueError is
modelled as Except.error carrying the message. -/
def determine_tenant_id (cfg : TenantConfig) (event : SignupEvent) :
    Except String String :=
  let user_attributes := event.request.userAttributes
  let client_metadata := event.callerContext.clientMetadata
  let email := (user_attributes.lookup "email").getD ""
  let username := event.userName
  -- STRATEGY 1: explicit custom:tenant_id attribute (lines 57-60)
  match user_attributes.lookup "custom:tenant_id" with
  | some tenant_id => .ok tenant_id
  | none =>
  -- STRATEGY 2: invitation flow (lines 64-79)
  let invitation_code := client_metadata.lookup "invitation_code"
  let invitation_tenant := client_metadata.lookup "invitation_tenant_id"
  if truthy invitation_tenant then .ok (invitation_tenant.getD "")
  else
  let invStep :=
    if truthy invitation_code ∧ cfg.TENANT_STRATEGY = "invitation" then
      if pyHasChar (invitation_code.getD "") ':' then
        some ((pySplit (invitation_code.getD "") ':').getD 0 "")
      else none
    else none
  match invStep with
  | some tenant_id => .ok tenant_id
  | none =>
  -- STRATEGY 3: app client mapping (lines 83-95); the mapping table in the
  -- source is the empty dict, so no client id is ever mapped.
  let client_tenant_map : List (String × String) := []
  let clientStep :=
    match event.callerContext.clientId with
    | some client_id => client_tenant_map.lookup client_id
    | none => none
  match clientStep with
  | some tenant_id => .ok tenant_id
  | none =>
  -- STRATEGY 4: domain-based mapping (lines 99-120)
  let domainStep : Except String (Option String) :=
    if email ≠ "" ∧ pyHasChar email '@' ∧
        (cfg.TENANT_STRATEGY = "domain" ∨ cfg.TENANT_STRATEGY = "strict") then
      let domain := pyLower ((pySplit email '@').getD 1 "")
      -- allow-list check (lines 103-105): raises only when REQUIRE_TENANT
      if cfg.ALLOWED_DOMAINS ≠ [] ∧ ¬ cfg.ALLOWED_DOMAINS.contains domain ∧
          cfg.REQUIRE_TENANT then
        .error ("Email domain " ++ domain ++ " is not allowed for registration")
      else
        -- explicit mapping (lines 108-111)
        match cfg.DOMAIN_TENANT_MAP.lookup domain with
        | some tenant_id => .ok (some tenant_id)
        | none =>
          -- first label of the domain when no map is configured (lines 113-120)
          if cfg.DOMAIN_TENANT_MAP = [] ∧ domain ≠ "" then
            let domain_parts := pySplit domain '.'
            let potential_tenant := domain_parts.getD 0 ""
            if potential_tenant ≠ "" ∧ ¬ consumerDomains.contains potential_tenant then
              .ok (some potential_tenant)
            else .ok none
          else .ok none
    else .ok none
  match domainStep with
  | .error e => .error e
  | .ok (some tenant_id) => .ok tenant_id
  | .ok none =>
  -- STRATEGY 5: personal tenant (lines 123-129)
  if cfg.ALLOW_PERSONAL_TENANTS ∨ cfg.TENANT_STRATEGY = "personal" then
    let identifier := if email ≠ "" then email else username
    .ok (personal_tenant_id identifier)
  else
  -- no tenant (lines 132-138)
  if cfg.REQUIRE_TENANT then
    .error "Unable to determine tenant ID for user registration"
  else .ok "unassigned"

/-! ## TimeOrderedId layout (uuidv7.py, lines 10-47)

The generator reads the clock and two random fields; these are inputs here.
The 128-bit value is assembled exactly as in the source. -/

/-- The 128-bit integer assembled by uuidv7 (lines 35-44): 48-bit millisecond
timestamp, version 7, 12 random bits, variant 2, 62 random bits. -/
def uuid_int (unix_ts_ms rand_a rand_b : Nat) : Nat :=
  (unix_ts_ms <<< 80) ||| (0x7 <<< 76) ||| (rand_a <<< 64) ||| (0x2 <<< 62) ||| rand_b

/-- Auxiliary: a shifted value or-ed with a small value is their sum. -/
theorem shiftLeft_lor_eq_add (x : Nat) :
    ∀ (n y : Nat), y < 2 ^ n → (x <<< n) ||| y = x <<< n + y := by
  intro n
  induction n generalizing x with
  | zero =>
    intro y hy
    have : y = 0 := by omega
    subst this
    simp
  | succ n ih =>
    intro y hy
    have hbit : Nat.bit y.bodd y.div2 = y := Nat.bit_decomp y
    have hx : x <<< (n + 1) = Nat.bit false (x <<< n) := by
      simp [Nat.bit_val, Nat.shiftLeft_eq, Nat.pow_succ]
      ring
    have hdiv : y.div2 < 2 ^ n := by
      have h2 := Nat.bodd_add_div2 y
      have hp : 2 ^ (n + 1) = 2 * 2 ^ n := by ring
      omega
    calc x <<< (n + 1) ||| y
        = Nat.bit false (x <<< n) ||| Nat.bit y.bodd y.div2 := by rw [hx, hbit]
      _ = Nat.bit (false || y.bodd) ((x <<< n) ||| y.div2) := Nat.lor_bit _ _ _ _
      _ = Nat.bit y.bodd ((x <<< n) + y.div2) := by rw [Bool.false_or, ih x y.div2 hdiv]
      _ = x <<< (n + 1) + y := by
          have h2 := Nat.bodd_add_div2 y
          clear hx hbit
          simp only [Nat.bit_val, Nat.shiftLeft_eq, Nat.pow_succ]
          ring_nf
          omega

/-- The additive normal form of uuid_int under the field bounds of the
source (rand_a is 12 random bits, rand_b is 62 random bits). -/
theorem uuid_int_eq_add (ts a b : Nat) (ha : a < 2 ^ 12) (hb : b < 2 ^ 62) :
    uuid_int ts a b =
      ts * 2 ^ 80 + 7 * 2 ^ 76 + a * 2 ^ 64 + 2 ^ 63 + b := by
  have e1 : (0x2 <<< 62) ||| b = 2 ^ 63 + b := by
    rw [shiftLeft_lor_eq_add 0x2 62 b hb, Nat.shiftLeft_eq]
    ring
  have hlt1 : 2 ^ 63 + b < 2 ^ 64 := by
    have : (2 : Nat) ^ 64 = 2 * 2 ^ 63 ∧ (2 : Nat) ^ 63 = 2 * 2 ^ 62 := by
      constructor <;> ring
    omega
  have e2 : (a <<< 64) ||| (2 ^ 63 + b) = a * 2 ^ 64 + 2 ^ 63 + b := by
    rw [shiftLeft_lor_eq_add a 64 _ hlt1, Nat.shiftLeft_eq]
    ring
  have hlt2 : a * 2 ^ 64 + 2 ^ 63 + b < 2 ^ 76 := by
    have h1 : a * 2 ^ 64 ≤ (2 ^ 12 - 1) * 2 ^ 64 := by
      have : a ≤ 2 ^ 12 - 1 := by omega
      exact Nat.mul_le_mul_right _ this
    have h2 : (2 ^ 12 - 1) * 2 ^ 64 + 2 ^ 64 = 2 ^ 76 := by norm_num
    have h3 : 2 ^ 63 + b < 2 ^ 64 := hlt1
    omega
  have e3 : (0x7 <<< 76) ||| (a * 2 ^ 64 + 2 ^ 63 + b) =
      7 * 2 ^ 76 + (a * 2 ^ 64 + 2 ^ 63 + b) := by
    rw [shiftLeft_lor_eq_add 0x7 76 _ hlt2, Nat.shiftLeft_eq]
  have hlt3 : 7 * 2 ^ 76 + (a * 2 ^ 64 + 2 ^ 63 + b) < 2 ^ 80 := by
    have : (2 : Nat) ^ 80 = 16 * 2 ^ 76 := by norm_num
    omega
  have e4 : (ts <<< 80) ||| (7 * 2 ^ 76 + (a * 2 ^ 64 + 2 ^ 63 + b)) =
      ts * 2 ^ 80 + (7 * 2 ^ 76 + (a * 2 ^ 64 + 2 ^ 63 + b)) := by
    rw [shiftLeft_lor_eq_add ts 80 _ hlt3, Nat.shiftLeft_eq]
  calc uuid_int ts a b
      = (ts <<< 80) ||| ((0x7 <<< 76) ||| ((a <<< 64) ||| ((0x2 <<< 62) ||| b))) := by
        simp only [uuid_int, Nat.lor_assoc]
    _ = ts * 2 ^ 80 + 7 * 2 ^ 76 + a * 2 ^ 64 + 2 ^ 63 + b := by
        rw [e1, e2, e3, e4]
        ring

/-! ## Keyed record store (DynamoDB model)

An item is an association list from attribute names to values; values carry
the string / bool / map shapes the two lambdas write.  A conditional put with
attribute_not_exists fails exactly when an item with the written primary key
(PK and SK) already exists, per the DynamoDB contract. -/

/-- A DynamoDB attribute value as used by the sources. -/
inductive Val where
  | s (v : String)
  | b (v : Bool)
  | m (fields : List (String × Val))

/-- A stored item: attribute name to value, always carrying PK and SK. -/
abbrev Item := List (String × Val)

/-- Read a string attribute of an item. -/
def itemStr (it : Item) (k : String) : Option String :=
  match it.lookup k with
  | some (.s v) => some v
  | _ => none

/-- Whether two items share a primary key (PK and SK). -/
def sameKey (x y : Item) : Bool :=
  itemStr x "PK" = itemStr y "PK" && itemStr x "SK" = itemStr y "SK"

/-- Whether the store already holds an item with the given item key. -/
def keyExists (store : List Item) (it : Item) : Bool :=
  store.any (fun j => sameKey j it)

/-- put_item with ConditionExpression attribute_not_exists: the condition
fails exactly when an item with the written key exists.  The error is the
ConditionalCheckFailedException. -/
def put_item_if_absent (store : List Item) (it : Item) :
    Except Unit (List Item) :=
  if keyExists store it then .error () else .ok (store ++ it :: [])

/-- Per-item cancellation reason codes of a transact_write_items call whose
puts all carry an attribute_not_exists condition. -/
def transactReasons (store : List Item) (items : List Item) : List String :=
  items.map (fun it => if keyExists store it then "ConditionalCheckFailed" else "None")

/-- transact_write_items: all-or-nothing, canceled with per-item reasons when
any condition fails. -/
def transact_write_items (store : List Item) (items : List Item) :
    Except (List String) (List Item) :=
  let reasons := transactReasons store items
  if reasons.any (fun r => r = "ConditionalCheckFailed") then .error reasons
  else .ok (store ++ items)

/-! ## Grouped-transaction abort handling (post_confirmation lines 328-345) -/

/-- Outcome of the grouped transactWrite as seen by the exception handler:
success, TransactionCanceledException with per-item reasons, or another
ClientError code. -/
inductive TransactOutcome where
  | ok
  | canceled (cancellationReasons : List String)
  | clientError (code : String)
deriving DecidableEq

/-- Embedding of the except-ClientError block of lines 331-345.  A canceled
transaction is re-raised only when no reason contains ConditionalCheckFailed;
reasons other than conditional checks alongside a conditional check are only
logged (line 339). -/
def handle_transact_outcome (o : TransactOutcome) : Except String Unit :=
  match o with
  | .ok => .ok ()
  | .canceled cancellation_reasons =>
    let conditional_check_failed :=
      cancellation_reasons.any (fun reason => pyContainsSub reason "ConditionalCheckFailed")
    if conditional_check_failed then
      -- line 337: non-conditional reasons are computed and logged only
      .ok ()
    else
      .error "TransactionCanceledException"
  | .clientError code => .error code

/-! ## post_confirmation lambda_handler (lines 140-374)

The calls to collaborators outside the repository are inputs: json.loads on
the identities attribute is an arbitrary parser function, str(uuidv7()) and
the timestamp are values produced before the handler logic runs.  The
Cognito admin_update_user_attributes call is recorded in the result. -/

/-- External inputs of one handler invocation: the parsed identities
attribute (json.loads result, none models a parse exception), the generated
user id and the timestamp. -/
structure HandlerDeps where
  parseIdentities : String → Option (List (List (String × String)))
  freshUserId : String
  timestamp : String

/-- Result of a successful handler invocation: the returned event, the store
after the writes, the Cognito attribute write-back, and the user id the
invocation committed to. -/
structure PCResult where
  event : SignupEvent
  store : List Item
  attrWrites : List (String × String)
  userId : String

/-- Provider determination of lines 187-206. -/
def determineProvider (deps : HandlerDeps) (user_attributes : List (String × String)) :
    String × List (String × Val) :=
  match user_attributes.lookup "identities" with
  | none => ("COGNITO", [])
  | some identities_str =>
    if identities_str ≠ "" then
      match deps.parseIdentities identities_str with
      | none => ("COGNITO", [])  -- JSONDecodeError and friends, caught at line 205
      | some [] => ("COGNITO", [])
      | some (identity_info :: _) =>
        (pyUpper ((identity_info.lookup "providerName").getD "COGNITO"),
         [("federatedUserId", .s ((identity_info.lookup "userId").getD "")),
          ("federatedIssuer", .s ((identity_info.lookup "issuer").getD "")),
          ("federatedDateCreated", .s ((identity_info.lookup "dateCreated").getD ""))])
    else ("COGNITO", [])

/-- Embedding of the post-confirmation lambda_handler.  Raised exceptions are
Except.error; the final except block (lines 372-374) re-raises, so it is the
identity on errors. -/
def post_confirmation_handler (deps : HandlerDeps) (cfg : TenantConfig)
    (event : SignupEvent) (store : List Item) : Except String PCResult :=
  -- lines 152-155: only ConfirmSignUp events are processed
  if event.triggerSource ≠ some "PostConfirmation_ConfirmSignUp" then
    .ok ⟨event, store, [], ""⟩
  else
    let user_attributes := event.request.userAttributes
    let username := event.userName
    -- lines 160-168
    match user_attributes.lookup "sub" with
    | none => .error ("Missing Cognito sub for " ++ username)
    | some cognito_sub =>
    -- lines 171-180
    match determine_tenant_id cfg event with
    | .error e => .error e
    | .ok tenant_id =>
    if tenant_id = "" then .error "Tenant determination failed - empty tenant ID"
    else
    -- lines 182-184: a new user id is generated unconditionally
    let user_id := deps.freshUserId
    let pv := determineProvider deps user_attributes
    let provider := pv.1
    let timestamp := deps.timestamp
    -- lines 213-231: identity item
    let identity_item : Item :=
      [("PK", .s ("TENANT#" ++ tenant_id ++ "#USER#" ++ user_id)),
       ("SK", .s ("IDENTITY#" ++ provider)),
       ("entityType", .s "IDENTITY"),
       ("providerSub", .s cognito_sub),
       ("provider", .s provider),
       ("username", .s username),
       ("tenantId", .s tenant_id),
       ("createdAt", .s timestamp),
       ("GSI2PK", .s ("IDENT#" ++ cognito_sub)),
       ("GSI2SK", .s ("TENANT#" ++ tenant_id ++ "#USER#" ++ user_id)),
       ("GSI3PK", .s ("TENANT#" ++ tenant_id)),
       ("GSI3SK", .s ("USER#" ++ user_id))] ++ pv.2
    -- lines 234-246: conditional put; ConditionalCheckFailed is skipped
    let store1 :=
      match put_item_if_absent store identity_item with
      | .ok st => st
      | .error _ => store  -- line 243: already exists, skipping
    -- lines 249-261: profile item
    let profile_item : Item :=
      [("PK", .s ("TENANT#" ++ tenant_id ++ "#USER#" ++ user_id)),
       ("SK", .s "PROFILE"),
       ("userId", .s user_id),
       ("tenantId", .s tenant_id),
       ("status", .s "ACTIVE"),
       ("createdAt", .s timestamp),
       ("updatedAt", .s timestamp),
       ("entityType", .s "USER"),
       ("GSI3PK", .s ("TENANT#" ++ tenant_id)),
       ("GSI3SK", .s ("USER#" ++ user_id))]
    -- lines 264-285: settings item
    let settings_item : Item :=
      [("PK", .s ("TENANT#" ++ tenant_id ++ "#USER#" ++ user_id)),
       ("SK", .s "SETTINGS"),
       ("entityType", .s "SETTINGS"),
       ("tenantId", .s tenant_id),
       ("createdAt", .s timestamp),
       ("updatedAt", .s timestamp),
       ("preferences", .m [("theme", .s "light"), ("language", .s "en")]),
       ("notifications", .m [("marketing", .m [("email", .b false)])]),
       ("GSI3PK", .s ("TENANT#" ++ tenant_id)),
       ("GSI3SK", .s ("USER#" ++ user_id))]
    -- lines 288-301: membership item, admin role on a personal tenant
    let role := if pyStartsWith tenant_id "personal-" then "admin" else "member"
    let tenant_membership_item : Item :=
      [("PK", .s ("USER#" ++ user_id)),
       ("SK", .s ("TENANT#" ++ tenant_id)),
       ("status", .s "ACTIVE"),
       ("role", .s role),
       ("joinedAt", .s timestamp),
       ("tenantId", .s tenant_id),
       ("GSI4PK", .s ("USER#" ++ user_id)),
       ("GSI4SK", .s ("TENANT#" ++ tenant_id))]
    -- lines 304-345: grouped transaction and its abort handling
    let txn := transact_write_items store1 [profile_item, settings_item, tenant_membership_item]
    let outcome : TransactOutcome :=
      match txn with
      | .ok _ => .ok
      | .error reasons => .canceled reasons
    match handle_transact_outcome outcome with
    | .error e => .error e
    | .ok () =>
    let store2 := match txn with | .ok st => st | .error _ => store1
    -- lines 348-367: Cognito attribute write-back (collaborator call)
    let attrWrites := [("custom:user_id", user_id), ("custom:tenant_id", tenant_id)]
    .ok ⟨event, store2, attrWrites, user_id⟩

/-! ## pre_token_generation lambda_handler (whole file)

The store calls are an oracle of fallible operations, so that the totality
of the handler quantifies over every store behaviour, including failures.
The handler only ever writes into response.claimsOverrideDetails, which is
modelled explicitly; everything else on the event is read-only. -/

/-- Python str.replace, with fuel for kernel computability. -/
def replaceGo (pat rep : List Char) : Nat → List Char → List Char
  | 0, l => l
  | _, [] => []
  | fuel + 1, c :: rest =>
    if pat ≠ [] ∧ pat.isPrefixOf (c :: rest) then
      rep ++ replaceGo pat rep fuel ((c :: rest).drop pat.length)
    else c :: replaceGo pat rep fuel rest

/-- Python str.replace(pat, rep). -/
def pyReplace (s pat rep : String) : String :=
  String.mk (replaceGo pat.data rep.data s.data.length s.data)

/-- Lexicographic order on strings by code point, the DynamoDB sort-key
order for the ASCII keys in use. -/
def lexLe : List Char → List Char → Bool
  | [], _ => true
  | _ :: _, [] => false
  | a :: as, b :: bs =>
    if a = b then lexLe as bs else decide (a.toNat < b.toNat)

/-- Insert into a list sorted by le. -/
def insertByLe (le : Item → Item → Bool) (x : Item) : List Item → List Item
  | [] => [x]
  | y :: ys => if le x y then x :: y :: ys else y :: insertByLe le x ys

/-- Sort items by le (insertion sort, kernel-computable). -/
def sortByLe (le : Item → Item → Bool) : List Item → List Item
  | [] => []
  | x :: xs => insertByLe le x (sortByLe le xs)

/-- Sort items ascending by the named string attribute, as a DynamoDB query
returns items ordered by sort key. -/
def sortByStrAttr (k : String) (items : List Item) : List Item :=
  sortByLe (fun x y => lexLe ((itemStr x k).getD "").data ((itemStr y k).getD "").data) items

/-- The store oracle used by the pre-token lambda: get_item on the table,
query PK with SK begins_with, and query on the GSI2 index.  Every call may
fail, modelling ClientError and transport failures. -/
structure DB where
  getItem : String → String → Except String (Option Item)
  queryBeginsWith : String → String → Except String (List Item)
  queryGSI2 : String → Except String (List Item)

/-- The always-succeeding oracle over a concrete list-of-items store. -/
def dbOfStore (store : List Item) : DB where
  getItem := fun pk sk =>
    .ok (store.find? (fun it => itemStr it "PK" = some pk && itemStr it "SK" = some sk))
  queryBeginsWith := fun pk pre =>
    .ok (sortByStrAttr "SK" (store.filter (fun it =>
      itemStr it "PK" = some pk && pyStartsWith ((itemStr it "SK").getD "") pre)))
  queryGSI2 := fun key =>
    .ok (sortByStrAttr "GSI2SK" (store.filter (fun it => itemStr it "GSI2PK" = some key)))

/-- The claimsOverrideDetails slot of the event response: absent, JSON null,
or a dict optionally carrying claimsToAddOrOverride. -/
inductive COD where
  | absent
  | null
  | val (claimsToAddOrOverride : Option (List (String × String)))
deriving DecidableEq

/-- A Cognito pre-token-generation event, restricted to the fields the
lambda reads and writes. -/
structure PTEvent where
  triggerSource : Option String
  userName : Option String
  userPoolId : Option String
  userAttributes : List (String × String)
  claimsOverrideDetails : COD
deriving DecidableEq

/-- Python dict assignment on the claims map: overwrite in place or append. -/
def setClaim (claims : List (String × String)) (k v : String) :
    List (String × String) :=
  if claims.any (fun p => p.1 = k) then
    claims.map (fun p => if p.1 = k then (k, v) else p)
  else claims ++ [(k, v)]

/-- Lines 40-47: materialise claimsOverrideDetails and its
claimsToAddOrOverride dict.  A JSON-null claimsOverrideDetails makes line 43
raise a TypeError (the membership test on None), caught by the outer
handler. -/
def normalizeCOD : COD → Except String COD
  | .absent => .ok (.val (some []))
  | .null => .error "TypeError: argument of type NoneType is not iterable"
  | .val none => .ok (.val (some []))
  | .val (some m) => .ok (.val (some m))

/-- get_user_tenants (lines 163-189): tenant ids from the membership items
of the user, in index order; any store error yields the empty list. -/
def get_user_tenants (db : DB) (user_id : String) : List String :=
  match db.queryBeginsWith ("USER#" ++ user_id) "TENANT#" with
  | .error _ => []
  | .ok items =>
    match items.mapM (fun it => itemStr it "SK") with
    | none => []  -- a KeyError inside the loop is caught by the except block
    | some sks => sks.map (fun sk => pyReplace sk "TENANT#" "")

/-- count_user_tenants (lines 191-212). -/
def count_user_tenants (db : DB) (user_id : String) : Nat :=
  match db.queryBeginsWith ("USER#" ++ user_id) "TENANT#" with
  | .error _ => 0
  | .ok items => items.length

/-- get_user_groups (lines 262-292): group id and role per group item. -/
def get_user_groups (db : DB) (tenant_id user_id : String) :
    List (String × String) :=
  match db.queryBeginsWith ("TENANT#" ++ tenant_id ++ "#USER#" ++ user_id) "GROUP#" with
  | .error _ => []
  | .ok items =>
    match items.mapM (fun it => itemStr it "SK") with
    | none => []
    | some sks =>
      (sks.zip items).map (fun p =>
        (pyReplace p.1 "GROUP#" "", (itemStr p.2 "role").getD "member"))

/-- json.dumps of one group object. -/
def jsonGroup (g : String × String) : String :=
  "\x7b\x22id\x22: \x22" ++ g.1 ++ "\x22, \x22role\x22: \x22" ++ g.2 ++ "\x22\x7d"

/-- json.dumps of the group list, with the default separators. -/
def jsonGroups (gs : List (String × String)) : String :=
  "[" ++ String.intercalate ", " (gs.map jsonGroup) ++ "]"

/-- enrich_token_with_user_data (lines 214-260): profile-based and
settings-based optional claims; every failure is swallowed and the claims
written so far are kept. -/
def enrich_token_with_user_data (db : DB) (claims : List (String × String))
    (user_id tenant_id : String) : List (String × String) :=
  match db.getItem ("TENANT#" ++ tenant_id ++ "#USER#" ++ user_id) "PROFILE" with
  | .error _ => claims
  | .ok user_profile =>
    let claims :=
      match user_profile with
      | none => claims
      | some prof =>
        let claims :=
          match itemStr prof "displayName" with
          | some v => setClaim claims "display_name" v
          | none => claims
        let claims :=
          match itemStr prof "accountTier" with
          | some v => setClaim claims "account_tier" v
          | none => claims
        let user_groups := get_user_groups db tenant_id user_id
        if user_groups ≠ [] then setClaim claims "groups" (jsonGroups user_groups)
        else claims
    match db.getItem ("TENANT#" ++ tenant_id ++ "#USER#" ++ user_id) "SETTINGS" with
    | .error _ => claims
    | .ok none => claims
    | .ok (some user_settings) =>
      match user_settings.lookup "preferences" with
      | some (.m prefs) =>
        match prefs.lookup "language" with
        | some (.s lang) => setClaim claims "preferred_language" lang
        | _ => claims
      | _ => claims

/-- The body of the pre-token lambda_handler inside the outer try (lines
23-157).  The error value carries the claimsOverrideDetails written so far,
because the Python code mutates the event in place before an exception can
escape to the outer handler. -/
def pre_token_core (db : DB) (event : PTEvent) : Except (String × COD) COD :=
  let user_attributes := event.userAttributes
  let trigger_source := event.triggerSource.getD "Unknown"
  match user_attributes.lookup "sub" with
  | none => .ok event.claimsOverrideDetails  -- lines 35-37: return the event
  | some cognito_sub =>
  match normalizeCOD event.claimsOverrideDetails with
  | .error e => .error (e, event.claimsOverrideDetails)
  | .ok codNorm =>
  let claims0 := match codNorm with | .val (some m) => m | _ => []
  -- FLOW 1 (lines 50-102): ids taken from the Cognito attributes
  if (user_attributes.lookup "custom:user_id").isSome ∧
      (user_attributes.lookup "custom:tenant_id").isSome then
    let user_id := (user_attributes.lookup "custom:user_id").getD ""
    let tenant_id := (user_attributes.lookup "custom:tenant_id").getD ""
    match db.getItem ("USER#" ++ user_id) ("TENANT#" ++ tenant_id) with
    | .error _ =>
      -- lines 96-100: membership check failed, basic claims only
      let claims := setClaim (setClaim claims0 "user_id" user_id) "tenant_id" tenant_id
      .ok (.val (some claims))
    | .ok tenant_membership =>
      let tenant_id2 :=
        match tenant_membership with
        | some _ => tenant_id
        | none =>
          -- lines 65-77: membership gone, look for other tenants
          match get_user_tenants db user_id with
          | [] => tenant_id  -- line 73 logs only; line 81 still adds tenant_id
          | t :: _ => t      -- line 76: first available tenant
      -- lines 80-81: claims are added on every path of the surrounding if
      let claims := setClaim claims0 "user_id" user_id
      let claims := setClaim claims "tenant_id" tenant_id2
      let claims :=
        match tenant_membership with
        | some item =>
          match itemStr item "role" with
          | some r => setClaim claims "role" r
          | none => claims
        | none => claims
      let tenant_count := count_user_tenants db user_id
      let claims :=
        if tenant_count > 1 then
          setClaim (setClaim claims "has_multiple_tenants" "true")
            "tenant_count" (toString tenant_count)
        else claims
      let claims := enrich_token_with_user_data db claims user_id tenant_id2
      .ok (.val (some claims))
  else
    -- FLOW 2 (lines 104-157): lookup by Cognito sub on GSI2
    match db.queryGSI2 ("IDENT#" ++ cognito_sub) with
    | .error _ => .ok (.val (some claims0))  -- lines 154-155: caught, return event
    | .ok [] => .ok (.val (some claims0))    -- line 153: warning only
    | .ok (first :: _) =>
      match itemStr first "GSI2SK" with
      | none => .ok (.val (some claims0))    -- KeyError caught at line 154
      | some gsi2_sk =>
        let parts := pySplit gsi2_sk '#'
        let tenant_id := if parts.length > 1 then parts.getD 1 "" else ""
        let user_id := if parts.length > 3 then parts.getD 3 "" else ""
        if tenant_id ≠ "" ∧ user_id ≠ "" then
          let claims := setClaim claims0 "user_id" user_id
          let claims := setClaim claims "tenant_id" tenant_id
          let tenant_count := count_user_tenants db user_id
          let claims :=
            if tenant_count > 1 then
              setClaim (setClaim claims "has_multiple_tenants" "true")
                "tenant_count" (toString tenant_count)
            else claims
          let auth_type :=
            if trigger_source = "TokenGeneration_HostedAuth" then "federated"
            else if trigger_source = "TokenGeneration_RefreshTokens" then "refresh"
            else "password"
          let claims := setClaim claims "auth_type" auth_type
          let claims := enrich_token_with_user_data db claims user_id tenant_id
          .ok (.val (some claims))
        else .ok (.val (some claims0))       -- line 151: warning only
/-- The pre-token lambda_handler: the outer try of lines 23-161 catches
every exception and returns the (possibly partially updated) event. -/
def pre_token_handler (db : DB) (event : PTEvent) : PTEvent :=
  match pre_token_core db event with
  | .ok cod => { event with claimsOverrideDetails := cod }
  | .error e => { event with claimsOverrideDetails := e.2 }

/-! ## Theorems for the claims -/

/-- Claim C9: every generated identifier is a 128-bit value whose high 48
bits are the millisecond timestamp, whose version field is 7 and whose
variant bits are the RFC 9562 value 0b10; ids generated at strictly
increasing millisecond timestamps are strictly increasing as 128-bit
integers. -/
theorem uuidv7_layout_and_order (ts a b ts2 a2 b2 : Nat)
    (hts : ts < 2 ^ 48) (ha : a < 2 ^ 12) (hb : b < 2 ^ 62)
    (hts2 : ts2 < 2 ^ 48) (ha2 : a2 < 2 ^ 12) (hb2 : b2 < 2 ^ 62) :
    uuid_int ts a b < 2 ^ 128 ∧
    uuid_int ts a b >>> 80 = ts ∧
    (uuid_int ts a b >>> 76) % 16 = 7 ∧
    (uuid_int ts a b >>> 62) % 4 = 2 ∧
    (ts < ts2 → uuid_int ts a b < uuid_int ts2 a2 b2) := by
  rw [uuid_int_eq_add ts a b ha hb, uuid_int_eq_add ts2 a2 b2 ha2 hb2,
    Nat.shiftRight_eq_div_pow, Nat.shiftRight_eq_div_pow, Nat.shiftRight_eq_div_pow]
  omega

/-- Witness for C9 at concrete field values. -/
theorem uuidv7_layout_and_order_witness :
    uuid_int 1700000000000 5 9 < 2 ^ 128 ∧
    uuid_int 1700000000000 5 9 >>> 80 = 1700000000000 ∧
    (uuid_int 1700000000000 5 9 >>> 76) % 16 = 7 ∧
    (uuid_int 1700000000000 5 9 >>> 62) % 4 = 2 ∧
    (1700000000000 < 1700000000001 →
      uuid_int 1700000000000 5 9 < uuid_int 1700000000001 0 0) :=
  uuidv7_layout_and_order 1700000000000 5 9 1700000000001 0 0
    (by norm_num) (by norm_num) (by norm_num) (by norm_num) (by norm_num) (by norm_num)

/-- Claim C4: an explicit custom:tenant_id attribute with value T1 outranks a
domain map sending the email domain to a different tenant T2: resolution
returns T1. -/
theorem tenant_explicit_attribute_outranks_domain (cfg : TenantConfig)
    (event : SignupEvent) (T1 T2 domain : String)
    (hattr : event.request.userAttributes.lookup "custom:tenant_id" = some T1)
    (hdom : pyLower ((pySplit ((event.request.userAttributes.lookup "email").getD "") '@').getD 1 "")
      = domain)
    (hmap : cfg.DOMAIN_TENANT_MAP.lookup domain = some T2)
    (hne : T1 ≠ T2) :
    determine_tenant_id cfg event = .ok T1 := by
  simp [determine_tenant_id, hattr]

/-- Witness for C4: explicit attribute T1, conflicting domain map to T2. -/
theorem tenant_explicit_attribute_outranks_domain_witness :
    determine_tenant_id ⟨"domain", true, [("co.example", "T2")], [], false⟩
      ⟨some "PostConfirmation_ConfirmSignUp", "jdoe", "pool-1",
        ⟨[("custom:tenant_id", "T1"), ("email", "a@co.example")]⟩, ⟨[], none⟩⟩ = .ok "T1" :=
  tenant_explicit_attribute_outranks_domain _ _ "T1" "T2" "co.example"
    (by decide) (by decide) (by decide) (by decide)

/-- Counterexample to claim C5: the email domain b.com is absent from the
configured allow-list (which holds only a.com) and the tenant-required
policy is off, yet the domain strategy still returns the domain-map entry T2
for the disallowed domain, instead of yielding no tenant: the allow-list
check of lines 103-105 does not stop the fall-through into the map lookup
when REQUIRE_TENANT is false. -/
theorem domain_allow_list_counterexample :
    determine_tenant_id ⟨"domain", true, [("b.com", "T2")], ["a.com"], false⟩
      ⟨some "PostConfirmation_ConfirmSignUp", "jdoe", "pool-1",
        ⟨[("email", "u@b.com")]⟩, ⟨[], none⟩⟩ = .ok "T2" := by decide

/-- Claim C5 as amended: for an email domain absent from a configured
non-empty allow-list, a "domain not allowed" error is raised exactly when
the tenant-required policy is enabled; when it is disabled the strategy does
not fail and still returns the domain-map entry of the disallowed domain
when one exists. -/
theorem domain_allow_list_amended (cfg : TenantConfig) (event : SignupEvent)
    (email domain T2 : String)
    (hstrat : cfg.TENANT_STRATEGY = "domain" ∨ cfg.TENANT_STRATEGY = "strict")
    (hattr : event.request.userAttributes.lookup "custom:tenant_id" = none)
    (hinvt : truthy (event.callerContext.clientMetadata.lookup "invitation_tenant_id") = false)
    (hemail : (event.request.userAttributes.lookup "email").getD "" = email)
    (hat : pyHasChar email '@' = true)
    (hdom : pyLower ((pySplit email '@').getD 1 "") = domain)
    (hconf : cfg.ALLOWED_DOMAINS ≠ [])
    (habsent : cfg.ALLOWED_DOMAINS.contains domain = false) :
    (cfg.REQUIRE_TENANT = true →
      determine_tenant_id cfg event =
        .error ("Email domain " ++ domain ++ " is not allowed for registration")) ∧
    (cfg.REQUIRE_TENANT = false → cfg.DOMAIN_TENANT_MAP.lookup domain = some T2 →
      determine_tenant_id cfg event = .ok T2) := by
  have hne : email ≠ "" := by
    intro h
    rw [h] at hat
    simp [pyHasChar] at hat
  have hinvStrat : cfg.TENANT_STRATEGY ≠ "invitation" := by
    rcases hstrat with h | h <;> simp [h]
  have hdom2 : pyLower ((pySplit email '@')[1]?.getD "") = domain := by
    simpa [List.getD] using hdom
  have habsent2 : domain ∉ cfg.ALLOWED_DOMAINS := by simpa using habsent
  constructor
  · intro hreq
    cases hcid : event.callerContext.clientId <;>
      simp [determine_tenant_id, hattr, hinvt, hinvStrat, hemail, hne, hat, hstrat,
        hcid, hdom2, hconf, habsent2, hreq]
  · intro hreq hmap
    cases hcid : event.callerContext.clientId <;>
      simp [determine_tenant_id, hattr, hinvt, hinvStrat, hemail, hne, hat, hstrat,
        hcid, hdom2, hconf, habsent2, hreq, hmap]

/-- Witness for the amended C5, both branches at concrete inputs. -/
theorem domain_allow_list_amended_witness :
    determine_tenant_id ⟨"domain", true, [("b.com", "T2")], ["a.com"], true⟩
      ⟨some "PostConfirmation_ConfirmSignUp", "jdoe", "pool-1",
        ⟨[("email", "u@b.com")]⟩, ⟨[], none⟩⟩ =
      .error "Email domain b.com is not allowed for registration" ∧
    determine_tenant_id ⟨"domain", true, [("b.com", "T2")], ["a.com"], false⟩
      ⟨some "PostConfirmation_ConfirmSignUp", "jdoe", "pool-1",
        ⟨[("email", "u@b.com")]⟩, ⟨[], none⟩⟩ = .ok "T2" :=
  ⟨(domain_allow_list_amended _ _ "u@b.com" "b.com" "T2" (by decide) (by decide)
      (by decide) (by decide) (by decide) (by decide) (by decide) (by decide)).1 rfl,
   (domain_allow_list_amended _ _ "u@b.com" "b.com" "T2" (by decide) (by decide)
      (by decide) (by decide) (by decide) (by decide) (by decide) (by decide)).2 rfl rfl⟩

/-- Claim C10: with an empty domain-tenant map and the domain strategy
active, resolution returns the first dot-separated label of the email
domain, unless that label is one of the hard-coded consumer domains, in
which case the domain strategy yields no tenant and resolution falls through
to the personal-tenant fallback. -/
theorem empty_domain_map_first_label (cfg : TenantConfig) (event : SignupEvent)
    (email domain : String)
    (hstrat : cfg.TENANT_STRATEGY = "domain" ∨ cfg.TENANT_STRATEGY = "strict")
    (hattr : event.request.userAttributes.lookup "custom:tenant_id" = none)
    (hinvt : truthy (event.callerContext.clientMetadata.lookup "invitation_tenant_id") = false)
    (hemail : (event.request.userAttributes.lookup "email").getD "" = email)
    (hat : pyHasChar email '@' = true)
    (hdom : pyLower ((pySplit email '@').getD 1 "") = domain)
    (hmap : cfg.DOMAIN_TENANT_MAP = [])
    (hallowed : cfg.ALLOWED_DOMAINS = [])
    (hdomne : domain ≠ "") :
    ((pySplit domain '.').getD 0 "" ≠ "" ∧
        consumerDomains.contains ((pySplit domain '.').getD 0 "") = false →
      determine_tenant_id cfg event = .ok ((pySplit domain '.').getD 0 "")) ∧
    (consumerDomains.contains ((pySplit domain '.').getD 0 "") = true ∧
        cfg.ALLOW_PERSONAL_TENANTS = true →
      determine_tenant_id cfg event = .ok (personal_tenant_id email)) := by
  have hne : email ≠ "" := by
    intro h
    rw [h] at hat
    simp [pyHasChar] at hat
  have hinvStrat : cfg.TENANT_STRATEGY ≠ "invitation" := by
    rcases hstrat with h | h <;> simp [h]
  have hdom2 : pyLower ((pySplit email '@')[1]?.getD "") = domain := by
    simpa [List.getD] using hdom
  constructor
  · rintro ⟨hlab, hcons⟩
    have hlab2 : (pySplit domain '.')[0]?.getD "" ≠ "" := by
      simpa [List.getD] using hlab
    have hcons2 : (pySplit domain '.')[0]?.getD "" ∉ consumerDomains := by
      simpa using hcons
    cases hcid : event.callerContext.clientId <;>
      simp [determine_tenant_id, hattr, hinvt, hinvStrat, hemail, hne, hat, hstrat,
        hcid, hdom2, hmap, hallowed, hdomne, hlab2, hcons2, List.getD]
  · rintro ⟨hcons, hpers⟩
    have hcons2 : (pySplit domain '.')[0]?.getD "" ∈ consumerDomains := by
      simpa using hcons
    cases hcid : event.callerContext.clientId <;>
      simp [determine_tenant_id, hattr, hinvt, hinvStrat, hemail, hne, hat, hstrat,
        hcid, hdom2, hmap, hallowed, hdomne, hcons2, hpers, List.getD]

/-- Witness for C10: acme.example yields acme; gmail.com falls through to
the personal tenant. -/
theorem empty_domain_map_first_label_witness :
    determine_tenant_id ⟨"domain", true, [], [], false⟩
      ⟨some "PostConfirmation_ConfirmSignUp", "jdoe", "pool-1",
        ⟨[("email", "a@acme.example")]⟩, ⟨[], none⟩⟩ = .ok "acme" ∧
    determine_tenant_id ⟨"domain", true, [], [], false⟩
      ⟨some "PostConfirmation_ConfirmSignUp", "jdoe", "pool-1",
        ⟨[("email", "a@gmail.com")]⟩, ⟨[], none⟩⟩ =
      .ok (personal_tenant_id "a@gmail.com") :=
  ⟨(empty_domain_map_first_label _ _ "a@acme.example" "acme.example"
      (by decide) (by decide) (by decide) (by decide) (by decide) (by decide)
      (by decide) (by decide) (by decide)).1 (by decide),
   (empty_domain_map_first_label _ _ "a@gmail.com" "gmail.com"
      (by decide) (by decide) (by decide) (by decide) (by decide) (by decide)
      (by decide) (by decide) (by decide)).2 (by decide)⟩

/-- Claim C6: the personal tenant id is a deterministic function of the
email (and of the username when the email is empty): resolving twice with
the same identifier inputs yields the identical tenant id, and the id
carries the reserved personal- prefix that separates it from organizational
tenant ids. -/
theorem personal_tenant_deterministic (email username email2 username2 : String)
    (he : email = email2) (hu : username = username2) :
    personal_tenant_id (if email ≠ "" then email else username) =
      personal_tenant_id (if email2 ≠ "" then email2 else username2) ∧
    ∃ suffix, personal_tenant_id (if email ≠ "" then email else username) =
      "personal-" ++ suffix := by
  subst he
  subst hu
  exact ⟨rfl, ⟨_, rfl⟩⟩

/-- Witness for C6 at a concrete email and username. -/
theorem personal_tenant_deterministic_witness :
    personal_tenant_id (if "a@co.example" ≠ "" then "a@co.example" else "jdoe") =
      personal_tenant_id (if "a@co.example" ≠ "" then "a@co.example" else "jdoe") ∧
    ∃ suffix, personal_tenant_id (if "a@co.example" ≠ "" then "a@co.example" else "jdoe") =
      "personal-" ++ suffix :=
  personal_tenant_deterministic "a@co.example" "jdoe" "a@co.example" "jdoe" rfl rfl

/-- Counterexample to claim C3: a canceled grouped transaction whose
cancellation reasons are a conditional-check failure alongside the
non-predicate reason TransactionConflict is treated as success by lines
331-342 (the any-test at line 334 succeeds and line 337 only logs the
non-conditional reasons), whereas the claim demands that an abort containing
any non-predicate reason is surfaced as a hard failure. -/
theorem transact_abort_mixed_counterexample :
    handle_transact_outcome
      (.canceled ["ConditionalCheckFailed", "TransactionConflict"]) = .ok () := by decide

/-- Claim C3 as amended: an abort containing at least one predicate
(conditional-check) failure is treated as success, even when non-predicate
reasons are present alongside (these are only logged); an abort containing
no predicate failure at all, and any non-cancellation client error, is
surfaced as a hard failure. -/
theorem transact_abort_handling (reasons : List String) :
    ((reasons.any (fun r => pyContainsSub r "ConditionalCheckFailed")) = true →
      handle_transact_outcome (.canceled reasons) = .ok ()) ∧
    ((reasons.any (fun r => pyContainsSub r "ConditionalCheckFailed")) = false →
      handle_transact_outcome (.canceled reasons) =
        .error "TransactionCanceledException") ∧
    (∀ code, handle_transact_outcome (.clientError code) = .error code) := by
  refine ⟨fun h => ?_, fun h => ?_, fun code => rfl⟩ <;>
    simp [handle_transact_outcome, h]

/-- Witness for the amended C3: an all-predicate abort is success, an abort
without predicate failures propagates, a client error propagates. -/
theorem transact_abort_handling_witness :
    handle_transact_outcome (.canceled ["ConditionalCheckFailed", "None"]) = .ok () ∧
    handle_transact_outcome (.canceled ["TransactionConflict", "None"]) =
      .error "TransactionCanceledException" ∧
    handle_transact_outcome (.clientError "ProvisionedThroughputExceededException") =
      .error "ProvisionedThroughputExceededException" :=
  ⟨(transact_abort_handling ["ConditionalCheckFailed", "None"]).1 (by decide),
   (transact_abort_handling ["TransactionConflict", "None"]).2.1 (by decide),
   (transact_abort_handling ["TransactionConflict", "None"]).2.2
     "ProvisionedThroughputExceededException"⟩

/-! ## Concrete scenario for the confirmation-idempotence claims -/

/-- Configuration of the running example: domain strategy, the co.example
domain mapped to tenant-co, no allow-list, tenant not required. -/
def cfgExample : TenantConfig := ⟨"domain", true, [("co.example", "tenant-co")], [], false⟩

/-- A sign-up confirmation event for subject s-1 with email a@co.example. -/
def evExample : SignupEvent :=
  ⟨some "PostConfirmation_ConfirmSignUp", "jdoe", "pool-1",
    ⟨[("sub", "s-1"), ("email", "a@co.example")]⟩, ⟨[], none⟩⟩

/-- External inputs of the first delivery: fresh id u1. -/
def depsFirst : HandlerDeps := ⟨fun _ => none, "u1", "2024-01-01T00:00:00Z"⟩

/-- External inputs of the second delivery: fresh id u2 (a later uuidv7). -/
def depsSecond : HandlerDeps := ⟨fun _ => none, "u2", "2024-01-01T00:00:05Z"⟩

/-- The store contents after the first delivery of the example event. -/
def storeAfterFirst : List Item :=
  match post_confirmation_handler depsFirst cfgExample evExample [] with
  | .ok r => r.store
  | .error _ => []

/-- Claim C1 at the failing input: the first delivery of the confirmation
event commits to user id u1 and writes four records; redelivering the very
same event resolves to the freshly generated u2 — not to the existing u1
recorded for subject s-1 — and writes four further records, because lines
182-184 generate a new id unconditionally and no subject-lookup or
email-lookup query exists in the handler. -/
theorem reconfirmation_generates_new_user :
    (post_confirmation_handler depsFirst cfgExample evExample []).map PCResult.userId =
      .ok "u1" ∧
    storeAfterFirst.length = 4 ∧
    (post_confirmation_handler depsSecond cfgExample evExample storeAfterFirst).map
      PCResult.userId = .ok "u2" ∧
    (post_confirmation_handler depsSecond cfgExample evExample storeAfterFirst).map
      (fun r => r.store.length) = .ok 8 := by decide

/-- Store exhibiting the conflict scenario of claim C2: the subject-lookup
index entry for s-1 records the winner user id u0, and an identity item is
already present at the key the current invocation is about to write, so its
conditional put fails with ConditionalCheckFailed. -/
def storeConflict : List Item :=
  [[("PK", .s "TENANT#tenant-co#USER#u0"),
    ("SK", .s "IDENTITY#COGNITO"),
    ("entityType", .s "IDENTITY"),
    ("providerSub", .s "s-1"),
    ("provider", .s "COGNITO"),
    ("username", .s "jdoe"),
    ("tenantId", .s "tenant-co"),
    ("createdAt", .s "2024-01-01T00:00:00Z"),
    ("GSI2PK", .s "IDENT#s-1"),
    ("GSI2SK", .s "TENANT#tenant-co#USER#u0"),
    ("GSI3PK", .s "TENANT#tenant-co"),
    ("GSI3SK", .s "USER#u0")],
   [("PK", .s "TENANT#tenant-co#USER#u2"),
    ("SK", .s "IDENTITY#COGNITO"),
    ("entityType", .s "IDENTITY"),
    ("providerSub", .s "s-1"),
    ("provider", .s "COGNITO"),
    ("username", .s "jdoe"),
    ("tenantId", .s "tenant-co"),
    ("createdAt", .s "2024-01-01T00:00:01Z"),
    ("GSI2PK", .s "IDENT#s-1"),
    ("GSI2SK", .s "TENANT#tenant-co#USER#u2"),
    ("GSI3PK", .s "TENANT#tenant-co"),
    ("GSI3SK", .s "USER#u2")]]

/-- Claim C2 at the failing input: the identity conditional write of the
invocation carrying fresh id u2 fails its uniqueness predicate (an identity
item at its target key already exists), and the subject-lookup index points
at user id u0; yet the handler neither re-queries the index nor restarts
with u0 — it continues with its own u2, creating Profile, Settings and
Membership records under u2 (store grows by exactly the three grouped
items), the split-brain outcome the claim rules out. -/
theorem conflict_no_reresolution :
    keyExists storeConflict
      [("PK", .s "TENANT#tenant-co#USER#u2"), ("SK", .s "IDENTITY#COGNITO")] = true ∧
    itemStr (storeConflict.getD 0 []) "GSI2PK" = some "IDENT#s-1" ∧
    itemStr (storeConflict.getD 0 []) "GSI2SK" = some "TENANT#tenant-co#USER#u0" ∧
    (post_confirmation_handler depsSecond cfgExample evExample storeConflict).map
      PCResult.userId = .ok "u2" ∧
    (post_confirmation_handler depsSecond cfgExample evExample storeConflict).map
      (fun r => r.store.length) = .ok 5 := by decide

/-! ## Token-time claims -/

/-- Token event whose attributes carry user id u1 and tenant id T1. -/
def evToken : PTEvent :=
  ⟨some "TokenGeneration_Authentication", some "jdoe", some "pool-1",
    [("sub", "s-1"), ("custom:user_id", "u1"), ("custom:tenant_id", "T1")], .absent⟩

/-- A store in which the only membership of u1 is tenant T2 (T1 was revoked). -/
def storeOtherTenant : List Item :=
  [[("PK", .s "USER#u1"),
    ("SK", .s "TENANT#T2"),
    ("status", .s "ACTIVE"),
    ("role", .s "member"),
    ("joinedAt", .s "2024-01-01T00:00:00Z"),
    ("tenantId", .s "T2"),
    ("GSI4PK", .s "USER#u1"),
    ("GSI4SK", .s "TENANT#T2")]]

/-- Claim C7 at the failing input: when the membership for T1 is gone but
another membership T2 exists, the claims builder does fall back to the first
membership in index order and emits tenant_id T2; but when the user has no
membership at all, line 81 still adds the stale T1 as the tenant_id claim —
contradicting both the claim and the code comment of line 73 that says the
invalid tenant id should not be added. -/
theorem revoked_membership_stale_tenant_emitted :
    pre_token_handler (dbOfStore storeOtherTenant) evToken =
      ({ evToken with
         claimsOverrideDetails := COD.val (some [("user_id", "u1"), ("tenant_id", "T2")]) }) ∧
    pre_token_handler (dbOfStore []) evToken =
      ({ evToken with
         claimsOverrideDetails := COD.val (some [("user_id", "u1"), ("tenant_id", "T1")]) }) := by decide

/-- Claim C8: the pre-token handler is total over every store behaviour —
including stores whose every call fails — and always returns the event
itself, modified at most in response.claimsOverrideDetails; a failure can
only reduce the claims that are added, never block token issuance. -/
theorem pre_token_totality (db : DB) (event : PTEvent) :
    ∃ cod, pre_token_handler db event = { event with claimsOverrideDetails := cod } := by
  unfold pre_token_handler
  cases pre_token_core db event with
  | ok cod => exact ⟨cod, rfl⟩
  | error e => exact ⟨e.2, rfl⟩

end AuthModule
